import Mathlib

/-!
Verification of the books CRUD service (`app/`): data model, CRUD
operations, request handlers, authentication, and the event queue,
shallowly embedded from the Python source, with theorems settling the
specification's claims about them.
-/

namespace BooksApp

/-! ## Data model (`app/models.py`, `app/schemas.py`)

`Book` is the persistent row: `id` integer primary key; `title` and
`author` are `nullable=False` columns; `published_date`, `summary`,
`genre` are `nullable=True` columns, modelled as `Option String`. -/

structure Book where
  id : Nat
  title : String
  author : String
  published_date : Option String
  summary : Option String
  genre : Option String
deriving Repr, DecidableEq

/-- `BookCreate` (= `BookBase`): `title`, `author` required; the three
optional fields default to `None`. -/
structure BookCreate where
  title : String
  author : String
  published_date : Option String := none
  summary : Option String := none
  genre : Option String := none
deriving Repr, DecidableEq

/-- `BookUpdate`: every field is `Optional[...] = None`, and pydantic's
`exclude_unset` distinguishes a field absent from the request body from a
field explicitly set (possibly to `null`).  The outer `Option` is
"present in the body", the inner one is the supplied value, where for the
three nullable columns an explicit `null` is a legal value and for
`title`/`author` it is a value the NOT NULL column constraint rejects at
commit time.  So each field is `Option (Option String)`. -/
structure BookUpdate where
  title : Option (Option String) := none
  author : Option (Option String) := none
  published_date : Option (Option String) := none
  summary : Option (Option String) := none
  genre : Option (Option String) := none
deriving Repr, DecidableEq

/-! ## Record Store state

The relational table plus the integer-primary-key allocator: `books` is
the committed rows in insertion order, `nextId` the next id the store
assigns. -/

structure DB where
  books : List Book
  nextId : Nat
deriving Repr, DecidableEq

def emptyDB : DB := ⟨[], 1⟩

/-- Store invariant: every committed row's id is below the allocator,
so a freshly assigned id never collides with a live record. -/
def DB.fresh (db : DB) : Prop := ∀ b ∈ db.books, b.id < db.nextId

/-! ## CRUD operations (`app/crud.py`) -/

/-- `create_book`: builds a row from the `BookCreate` fields, inserts it,
commits, and refreshes, which fills in the store-assigned `id`.  Returns
the created row and the post-commit store. -/
def create_book (db : DB) (book_in : BookCreate) : Book × DB :=
  let db_book : Book :=
    { id := db.nextId
      title := book_in.title
      author := book_in.author
      published_date := book_in.published_date
      summary := book_in.summary
      genre := book_in.genre }
  (db_book, ⟨db.books ++ [db_book], db.nextId + 1⟩)

/-- `get_books`: `db.query(Book).offset(skip).limit(limit).all()`. -/
def get_books (db : DB) (skip : Nat) (limit : Nat) : List Book :=
  (db.books.drop skip).take limit

/-- `get_book_by_id`: `db.query(Book).filter(Book.id == book_id).first()`;
`None` when no row matches. -/
def get_book_by_id (db : DB) (book_id : Nat) : Option Book :=
  db.books.find? (fun b => b.id == book_id)

/-- Applying `updates.dict(exclude_unset=True)` to the in-memory row:
each field explicitly present in the body is `setattr`-assigned, each
absent field keeps its prior value.  The assigned values for `title` and
`author` may be `null`, so the intermediate row carries them as
`Option String`; whether the store accepts them is decided at commit. -/
def applyUpdate (b : Book) (u : BookUpdate) :
    Option String × Option String × Option String × Option String × Option String :=
  ( u.title.getD (some b.title)
  , u.author.getD (some b.author)
  , u.published_date.getD b.published_date
  , u.summary.getD b.summary
  , u.genre.getD b.genre )

/-- Store-level error: `db.commit()` raising (here: the NOT NULL column
constraint on `title`/`author` from `models.py` rejecting the flush). -/
inductive StoreError
  | integrityError
deriving Repr, DecidableEq

/-- `update_book`: `setattr` the explicitly-present fields, then commit.
The commit flushes `UPDATE books SET ...`; the store's NOT NULL
constraint on `title` and `author` (declared `nullable=False` in
`models.py`) makes the commit raise when either was assigned `null`,
leaving the committed row unchanged; otherwise the commit succeeds and
refresh returns the updated row. -/
def update_book (b : Book) (u : BookUpdate) : Except StoreError Book :=
  match applyUpdate b u with
  | (some t, some a, pd, s, g) =>
      .ok { id := b.id, title := t, author := a
            published_date := pd, summary := s, genre := g }
  | _ => .error .integrityError

/-- Commit a successfully updated row back into the table: the row with
that primary key is replaced in place. -/
def DB.commitUpdate (db : DB) (b' : Book) : DB :=
  ⟨db.books.map (fun r => if r.id = b'.id then b' else r), db.nextId⟩

/-- `delete_book` + commit: `DELETE FROM books WHERE id = ?`. -/
def delete_book (db : DB) (book_id : Nat) : DB :=
  ⟨db.books.filter (fun b => b.id ≠ book_id), db.nextId⟩

/-! ## Event Bus (`app/event_manager.py`, used by `app/main.py`)

Modelled from the spec: `event_manager.py` itself is not in the source
tree; per §4.4 the bus is one unbounded FIFO queue shared by the whole
process, `publish` appends at the tail, `consume` removes and returns the
head (suspending while empty).  The handlers put dict events on it. -/

/-- One queued event: an `action` string, the affected `book_id`, and --
except for `deleted` -- the record's `title`. -/
structure Event where
  action : String
  book_id : Nat
  title : Option String := none
deriving Repr, DecidableEq

/-- The queue contents, head first. -/
abbrev EventQueue := List Event

/-- `event_queue.put(event_data)`: append at the tail; unbounded, never
fails. -/
def publish (q : EventQueue) (e : Event) : EventQueue := q ++ [e]

/-! ## HTTP-level handlers (`app/main.py`)

Each protected handler runs after token validation; we model its body:
it reads/writes the Record Store, then enqueues exactly one event, then
returns.  `HError.notFound` is the 404 raised by the handler itself;
`HError.serverError` is the generic 500 an unhandled store exception
turns into via the global exception handler. -/

inductive HError
  | notFound
  | serverError
deriving Repr, DecidableEq

/-- A handler call's observable outcome: the response (a value, or the
error the handler raised) together with the Record Store and Event Bus
contents after the call.  When the handler raises before touching
either, they are returned as they were. -/
abbrev HResult (α : Type) := Except HError α × DB × EventQueue

/-- `create_new_book`: insert the row, then put a
`{action: "created", book_id, title}` event on the queue, then return
the created row. -/
def create_new_book (db : DB) (q : EventQueue) (book_in : BookCreate) :
    HResult Book :=
  let (new_book, db') := create_book db book_in
  let event_data : Event :=
    { action := "created", book_id := new_book.id, title := some new_book.title }
  (.ok new_book, db', publish q event_data)

/-- `read_book_by_id`: 404 when the id is absent; otherwise put a
`{action: "read", book_id, title}` event and return the row. -/
def read_book_by_id (db : DB) (q : EventQueue) (book_id : Nat) :
    HResult Book :=
  match get_book_by_id db book_id with
  | none => (.error .notFound, db, q)
  | some book =>
      let event_data : Event :=
        { action := "read", book_id := book.id, title := some book.title }
      (.ok book, db, publish q event_data)

/-- `update_book_by_id`: 404 when the id is absent; otherwise apply the
partial update and commit; a commit failure (NOT NULL violation) becomes
the generic 500 with nothing committed and nothing enqueued; on success
put a `{action: "updated", book_id, title}` event and return the updated
row. -/
def update_book_by_id (db : DB) (q : EventQueue) (book_id : Nat)
    (updates : BookUpdate) : HResult Book :=
  match get_book_by_id db book_id with
  | none => (.error .notFound, db, q)
  | some book =>
      match update_book book updates with
      | .error _ => (.error .serverError, db, q)
      | .ok updated_book =>
          let event_data : Event :=
            { action := "updated", book_id := updated_book.id
              title := some updated_book.title }
          (.ok updated_book, db.commitUpdate updated_book, publish q event_data)

/-- `delete_book_by_id`: 404 when the id is absent; otherwise delete the
row, put a `{action: "deleted", book_id}` event (no title), and return
no content (204). -/
def delete_book_by_id (db : DB) (q : EventQueue) (book_id : Nat) :
    HResult Unit :=
  match get_book_by_id db book_id with
  | none => (.error .notFound, db, q)
  | some _ =>
      let db' := delete_book db book_id
      let event_data : Event := { action := "deleted", book_id := book_id }
      (.ok (), db', publish q event_data)

/-! ## List endpoint (`read_all_books` in `app/main.py`) -/

/-- The paginated envelope returned by `GET /books/`. -/
structure PaginatedBooks where
  data : List Book
  total_count : Nat
  next_url : Option String := none
  prev_url : Option String := none
deriving Repr, DecidableEq

/-- `urlencode({"skip": s, "limit": l})` appended to the request path
`/books/`. -/
def pageUrl (s l : Nat) : String := s!"/books/?skip={s}&limit={l}"

/-- `read_all_books`: counts the table, fetches the page via
`get_books`, and computes `next_url` when `skip + limit < total_count`
(encoding `skip+limit`) and `prev_url` when `skip > 0` (encoding
`max(skip-limit, 0)`).  FastAPI validates `skip ≥ 0` and `limit ≥ 1`
before the body runs; no event is enqueued. -/
def read_all_books (db : DB) (skip : Nat) (limit : Nat) : PaginatedBooks :=
  let total_count := db.books.length
  let books := get_books db skip limit
  let next_url : Option String :=
    if skip + limit < total_count then some (pageUrl (skip + limit) limit)
    else none
  let prev_url : Option String :=
    if skip > 0 then some (pageUrl (max (skip - limit) 0) limit)
    else none
  { data := books, total_count := total_count
    next_url := next_url, prev_url := prev_url }

/-! ## Authentication (`app/auth.py`) -/

def SECRET_KEY : String := "supersecretkey"

def ACCESS_TOKEN_EXPIRE_MINUTES : Nat := 30

def FAKE_USERNAME : String := "testuser"

def FAKE_PASSWORD : String := "testpass"

/-- `authenticate_user`: equality against the one configured pair. -/
def authenticate_user (username : String) (password : String) : Bool :=
  username == FAKE_USERNAME && password == FAKE_PASSWORD

/-- The claims a token of this app carries: the payload passed in (here
only an optional `sub`) plus the `exp` instant stamped at issuance.
Instants are seconds since the epoch. -/
structure Claims where
  sub : Option String
  exp : Nat
deriving Repr, DecidableEq

/-- A signed token as the JWT library sees it: the claims together with
the secret that signed them.  Signature verification succeeds exactly
when the verifying secret matches the signing one. -/
structure Token where
  claims : Claims
  signedWith : String
deriving Repr, DecidableEq

/-- `create_access_token(data, expires_delta)` at current instant `now`:
copies the payload, stamps `exp = now + (expires_delta or 30 minutes)`,
and signs with `SECRET_KEY`.  `delta` is the delta in seconds, `none`
meaning the default. -/
def create_access_token (now : Nat) (sub : Option String)
    (delta : Option Nat) : Token :=
  { claims := { sub := sub, exp := now + delta.getD (ACCESS_TOKEN_EXPIRE_MINUTES * 60) }
    signedWith := SECRET_KEY }

/-- `jwt.decode(token, secret)` at instant `now`: raises (returns
`none`) when the signature does not verify or the `exp` claim is in the
past (`exp < now`); otherwise yields the payload. -/
def jwt_decode (now : Nat) (token : Token) (secret : String) : Option Claims :=
  if token.signedWith = secret ∧ now ≤ token.claims.exp then some token.claims
  else none

/-- The authentication failures of `get_current_user`, each raised as an
HTTP 401. -/
inductive AuthError
  | missing
  | malformed
  | invalidOrExpired
deriving Repr, DecidableEq

/-- Every `AuthError` is raised as `HTTP_401_UNAUTHORIZED`. -/
def AuthError.status : AuthError → Nat := fun _ => 401

/-- `get_current_user` at instant `now`: 401 `missing` when no token was
supplied; 401 `invalidOrExpired` when `jwt.decode` raises (`JWTError`);
401 `malformed` when the payload's `sub` is absent or falsy (the empty
string); otherwise the username. -/
def get_current_user (now : Nat) (token : Option Token) :
    Except AuthError String :=
  match token with
  | none => .error .missing
  | some t =>
      match jwt_decode now t SECRET_KEY with
      | none => .error .invalidOrExpired
      | some payload =>
          match payload.sub with
          | none => .error .malformed
          | some username =>
              if username = "" then .error .malformed else .ok username

/-! ## Concurrent SSE subscribers over the shared queue

Modelled from the spec (§4.4, §4.5; `event_manager.py` is not in the
source tree): one process-wide FIFO queue; each connected SSE
subscriber's `event_generator` loop repeatedly calls `consume`
(`event_queue.get()`), which removes and returns the head.  We track
events by sequence number so that distinct enqueues of equal payloads
stay distinguishable, and record which subscriber each dequeued event
went to.  An interleaving of handler enqueues and subscriber dequeues is
a path of the step relation `BusStep`. -/

structure BusState where
  queue : List Nat
  delivered : List (Nat × Nat)
  nextSeq : Nat
deriving Repr, DecidableEq

/-- The queue at process start: empty, nothing delivered. -/
def BusState.init : BusState := ⟨[], [], 0⟩

/-- One scheduler step: either some handler publishes the next event
(appended at the tail), or connected subscriber `i`'s `consume` returns,
removing the head `e` and delivering it to `i`. -/
inductive BusStep : BusState → BusState → Prop
  | enqueue (s : BusState) :
      BusStep s ⟨s.queue ++ [s.nextSeq], s.delivered, s.nextSeq + 1⟩
  | consume (s : BusState) (i e : Nat) (rest : List Nat)
      (h : s.queue = e :: rest) :
      BusStep s ⟨rest, s.delivered ++ [(i, e)], s.nextSeq⟩

/-- States an interleaving can reach from process start. -/
def BusReachable (s : BusState) : Prop :=
  Relation.ReflTransGen BusStep BusState.init s

/-- The inductive invariant: every event number in the queue or among
the deliveries was already allocated, and no event number occurs twice
across the queue and the delivery log together. -/
def BusInv (s : BusState) : Prop :=
  (∀ x ∈ s.queue ++ s.delivered.map Prod.snd, x < s.nextSeq) ∧
  (s.queue ++ s.delivered.map Prod.snd).Nodup

/-! ## Concrete fixtures used to instantiate theorems -/

/-- The spec's concrete scenario row: `{id: 1, title: "Dune",
author: "Herbert", published_date: null, summary: null, genre: null}`. -/
def sampleBook : Book := ⟨1, "Dune", "Herbert", none, none, none⟩

/-- A store holding exactly `sampleBook`, next id 2. -/
def sampleDB : DB := ⟨[sampleBook], 2⟩

/-! ## Helper lemmas -/

/-- Characterisation of a successful `update_book` commit: `title` and
`author` after `setattr` must be non-null, and every field is the
supplied value when present in the body, the prior one otherwise. -/
theorem update_book_eq_ok_iff (b b' : Book) (u : BookUpdate) :
    update_book b u = .ok b' ↔
    ∃ t a, u.title.getD (some b.title) = some t ∧
      u.author.getD (some b.author) = some a ∧
      b' = { id := b.id, title := t, author := a
             published_date := u.published_date.getD b.published_date
             summary := u.summary.getD b.summary
             genre := u.genre.getD b.genre } := by
  rcases u with ⟨ut, ua, upd, us, ug⟩
  rcases ut with _ | ⟨_ | t⟩ <;> rcases ua with _ | ⟨_ | a⟩ <;>
    simp [update_book, applyUpdate, eq_comm]

/-- A successful commit in `update_book` keeps the primary key. -/
theorem update_book_ok_id (b b' : Book) (u : BookUpdate)
    (h : update_book b u = .ok b') : b'.id = b.id := by
  rw [update_book_eq_ok_iff] at h
  obtain ⟨t, a, _, _, rfl⟩ := h
  rfl

/-- `update_book` raises at commit exactly when the body explicitly set
`title` or `author` to `null`. -/
theorem update_book_eq_error_iff (b : Book) (u : BookUpdate) :
    update_book b u = .error .integrityError ↔
    (u.title = some none ∨ u.author = some none) := by
  rcases u with ⟨ut, ua, upd, us, ug⟩
  rcases ut with _ | ⟨_ | t⟩ <;> rcases ua with _ | ⟨_ | a⟩ <;>
    simp [update_book, applyUpdate]

/-- `first()` on an id filter finds nothing iff no row has the id. -/
theorem get_book_by_id_eq_none_iff (db : DB) (book_id : Nat) :
    get_book_by_id db book_id = none ↔ ∀ b ∈ db.books, b.id ≠ book_id := by
  simp [get_book_by_id, List.find?_eq_none]

/-- A row found by `first()` on an id filter carries that id. -/
theorem get_book_by_id_some_id (db : DB) (book_id : Nat) (b : Book)
    (h : get_book_by_id db book_id = some b) : b.id = book_id := by
  have := List.find?_some h
  simpa using this

/-- Looking up a freshly inserted row: when no existing row has its id,
`first()` returns it. -/
theorem get_book_append_fresh (l : List Book) (b : Book) (n : Nat)
    (hfresh : ∀ r ∈ l, r.id ≠ b.id) :
    get_book_by_id ⟨l ++ [b], n⟩ b.id = some b := by
  have h1 : l.find? (fun r => r.id == b.id) = none := by
    rw [List.find?_eq_none]
    intro x hx
    simpa using hfresh x hx
  simp [get_book_by_id, List.find?_append, h1]

/-- Committing an updated row leaves every row with a different id in
the table. -/
theorem commitUpdate_mem_of_ne (db : DB) (b' r : Book) (hr : r ∈ db.books)
    (hne : r.id ≠ b'.id) : r ∈ (db.commitUpdate b').books := by
  simp only [DB.commitUpdate]
  have hmem := List.mem_map_of_mem (fun x => if x.id = b'.id then b' else x) hr
  simpa [hne] using hmem

/-- The bus invariant holds at process start. -/
theorem busInv_init : BusInv BusState.init := by
  constructor <;> simp [BusState.init]

/-- Each scheduler step preserves the bus invariant. -/
theorem busInv_step (s s' : BusState) (hstep : BusStep s s')
    (hinv : BusInv s) : BusInv s' := by
  obtain ⟨hbound, hnodup⟩ := hinv
  cases hstep with
  | enqueue =>
      have hperm : List.Perm
          ((s.queue ++ [s.nextSeq]) ++ s.delivered.map Prod.snd)
          (s.nextSeq :: (s.queue ++ s.delivered.map Prod.snd)) := by
        rw [List.append_assoc]
        exact List.perm_middle
      constructor
      · intro x hx
        have hx' := hperm.mem_iff.mp hx
        rcases List.mem_cons.mp hx' with h0 | h0
        · subst h0; exact Nat.lt_succ_self _
        · exact Nat.lt_succ_of_lt (hbound x h0)
      · refine hperm.nodup_iff.mpr (List.nodup_cons.mpr ⟨?_, hnodup⟩)
        intro hmem
        exact absurd (hbound _ hmem) (by omega)
  | consume i e rest h =>
      rw [h] at hbound hnodup
      have hperm : List.Perm
          (rest ++ (s.delivered ++ [(i, e)]).map Prod.snd)
          (e :: (rest ++ s.delivered.map Prod.snd)) := by
        have h1 : rest ++ (s.delivered ++ [(i, e)]).map Prod.snd
            = (rest ++ s.delivered.map Prod.snd) ++ [e] := by simp
        rw [h1]
        exact List.perm_append_singleton e (rest ++ s.delivered.map Prod.snd)
      constructor
      · intro x hx
        have hx' := hperm.mem_iff.mp hx
        exact hbound x (by simpa using hx')
      · refine hperm.nodup_iff.mpr ?_
        simpa using hnodup

/-- The bus invariant holds in every reachable state. -/
theorem busInv_reachable (s : BusState) (hs : BusReachable s) : BusInv s := by
  induction hs with
  | refl => exact busInv_init
  | tail _ hstep ih => exact busInv_step _ _ hstep ih

/-! ## Claim theorems -/

/-- Claim C5: the Credential Checker accepts exactly the one configured
username/password pair (and, being a total function, never raises), and
a token issued for the configured username validates back to that same
username at any instant up to its expiry. -/
theorem authenticate_user_and_token_roundtrip :
    (∀ u p, authenticate_user u p = true ↔
      (u = FAKE_USERNAME ∧ p = FAKE_PASSWORD)) ∧
    (∀ now delta t, t ≤ now + delta.getD (ACCESS_TOKEN_EXPIRE_MINUTES * 60) →
      get_current_user t (some (create_access_token now (some FAKE_USERNAME) delta)) =
        .ok FAKE_USERNAME) := by
  constructor
  · intro u p
    simp [authenticate_user]
  · intro now delta t h
    have hdec : jwt_decode t (create_access_token now (some FAKE_USERNAME) delta)
        SECRET_KEY = some ⟨some FAKE_USERNAME, now + delta.getD (ACCESS_TOKEN_EXPIRE_MINUTES * 60)⟩ := by
      simp [jwt_decode, create_access_token, h]
    simp only [get_current_user]
    rw [hdec]
    simp [FAKE_USERNAME]

/-- Witness for C5: the round-trip at a concrete instant inside the
TTL. -/
theorem authenticate_user_and_token_roundtrip_witness :
    (100 : Nat) ≤ 0 + (some 200 : Option Nat).getD (ACCESS_TOKEN_EXPIRE_MINUTES * 60) ∧
    get_current_user 100 (some (create_access_token 0 (some FAKE_USERNAME) (some 200))) =
      .ok FAKE_USERNAME :=
  ⟨by decide,
   authenticate_user_and_token_roundtrip.2 0 (some 200) 100 (by decide)⟩

/-- Claim C6: a token issued with TTL `T` fails validation with
`invalidOrExpired` at every instant strictly after issuance plus `T`,
and that failure is mapped to an HTTP 401 unauthorized response. -/
theorem token_expired_after_ttl (now T t : Nat) (sub : Option String)
    (h : now + T < t) :
    get_current_user t (some (create_access_token now sub (some T))) =
      .error .invalidOrExpired ∧
    AuthError.invalidOrExpired.status = 401 := by
  refine ⟨?_, rfl⟩
  have hdec : jwt_decode t (create_access_token now sub (some T)) SECRET_KEY = none := by
    simp only [jwt_decode, create_access_token, Option.getD_some]
    split
    · next hcond => exact absurd hcond.2 (by omega)
    · rfl
  simp [get_current_user, hdec]

/-- Witness for C6: a token with TTL 5 issued at instant 0, validated
at instant 6. -/
theorem token_expired_after_ttl_witness :
    get_current_user 6 (some (create_access_token 0 (some "testuser") (some 5))) =
      .error .invalidOrExpired ∧
    AuthError.invalidOrExpired.status = 401 :=
  token_expired_after_ttl 0 5 6 (some "testuser") (by decide)

/-- Claim C3: for every store state, `skip` and `limit ≥ 1`, the list
endpoint returns at most `limit` records starting at offset `skip`,
reports `total_count` as the table size, yields `next_url` iff
`skip + limit < total_count` (encoding `skip + limit` and `limit`), and
yields `prev_url` iff `skip > 0` (encoding `max(skip - limit, 0)` and
`limit`). -/
theorem read_all_books_pagination (db : DB) (skip limit : Nat)
    (hlim : 1 ≤ limit) :
    (read_all_books db skip limit).data.length ≤ limit ∧
    (read_all_books db skip limit).data = (db.books.drop skip).take limit ∧
    (read_all_books db skip limit).total_count = db.books.length ∧
    ((read_all_books db skip limit).next_url
      = if skip + limit < db.books.length then
          some (pageUrl (skip + limit) limit) else none) ∧
    ((read_all_books db skip limit).next_url.isSome ↔
      skip + limit < db.books.length) ∧
    ((read_all_books db skip limit).prev_url
      = if 0 < skip then some (pageUrl (max (skip - limit) 0) limit) else none) ∧
    ((read_all_books db skip limit).prev_url.isSome ↔ 0 < skip) := by
  refine ⟨?_, rfl, rfl, rfl, ?_, rfl, ?_⟩
  · simp [read_all_books, get_books]
  · by_cases h : skip + limit < db.books.length <;> simp [read_all_books, h]
  · by_cases h : 0 < skip <;> simp [read_all_books, h]

/-- Witness for C3: one page over the one-row sample store. -/
theorem read_all_books_pagination_witness :
    (read_all_books sampleDB 0 10).data.length ≤ 10 ∧
    (read_all_books sampleDB 0 10).data = (sampleDB.books.drop 0).take 10 ∧
    (read_all_books sampleDB 0 10).total_count = sampleDB.books.length ∧
    ((read_all_books sampleDB 0 10).next_url
      = if 0 + 10 < sampleDB.books.length then
          some (pageUrl (0 + 10) 10) else none) ∧
    ((read_all_books sampleDB 0 10).next_url.isSome ↔
      0 + 10 < sampleDB.books.length) ∧
    ((read_all_books sampleDB 0 10).prev_url
      = if 0 < 0 then some (pageUrl (max (0 - 10) 0) 10) else none) ∧
    ((read_all_books sampleDB 0 10).prev_url.isSome ↔ (0 : Nat) < 0) :=
  read_all_books_pagination sampleDB 0 10 (by decide)

/-- Claim C7: get-by-id, update-by-id and delete-by-id respond 404
`notFound` exactly when no row carries the requested id, and after a
successful delete a subsequent get-by-id on that id responds 404. -/
theorem not_found_iff_absent (db : DB) (q : EventQueue) (book_id : Nat) :
    ((read_book_by_id db q book_id).1 = .error .notFound ↔
      get_book_by_id db book_id = none) ∧
    (∀ u, (update_book_by_id db q book_id u).1 = .error .notFound ↔
      get_book_by_id db book_id = none) ∧
    ((delete_book_by_id db q book_id).1 = .error .notFound ↔
      get_book_by_id db book_id = none) ∧
    (get_book_by_id db book_id = none ↔ ∀ b ∈ db.books, b.id ≠ book_id) ∧
    (∀ db' q', delete_book_by_id db q book_id = (.ok (), db', q') →
      ∀ q₂, (read_book_by_id db' q₂ book_id).1 = .error .notFound) := by
  refine ⟨?_, fun u => ?_, ?_, get_book_by_id_eq_none_iff db book_id, ?_⟩
  · cases hfind : get_book_by_id db book_id <;> simp [read_book_by_id, hfind]
  · cases hfind : get_book_by_id db book_id with
    | none => simp [update_book_by_id, hfind]
    | some bk =>
        cases hup : update_book bk u <;> simp [update_book_by_id, hfind, hup]
  · cases hfind : get_book_by_id db book_id <;> simp [delete_book_by_id, hfind]
  · intro db' q' hdel q₂
    cases hfind : get_book_by_id db book_id
    · simp [delete_book_by_id, hfind] at hdel
    · simp [delete_book_by_id, hfind] at hdel
      obtain ⟨hdb, -⟩ := hdel
      subst hdb
      have hnone : get_book_by_id (delete_book db book_id) book_id = none := by
        rw [get_book_by_id_eq_none_iff]
        intro b hb
        simp [delete_book] at hb
        exact hb.2
      simp [read_book_by_id, hnone]

/-- Witness for C7: deleting the sample row then getting it responds
404. -/
theorem not_found_iff_absent_witness :
    (read_book_by_id (delete_book sampleDB 1) [] 1).1 = .error .notFound :=
  (not_found_iff_absent sampleDB [] 1).2.2.2.2 (delete_book sampleDB 1)
    (publish [] { action := "deleted", book_id := 1 }) rfl []

/-- Claim C9: when get, update or delete responds 404 `notFound`, the
Record Store and the Event Bus queue are returned exactly as they were:
nothing is enqueued and nothing is mutated. -/
theorem not_found_leaves_state_unchanged (db : DB) (q : EventQueue)
    (book_id : Nat) (h : get_book_by_id db book_id = none) :
    read_book_by_id db q book_id = (.error .notFound, db, q) ∧
    (∀ u, update_book_by_id db q book_id u = (.error .notFound, db, q)) ∧
    delete_book_by_id db q book_id = (.error .notFound, db, q) := by
  refine ⟨?_, fun u => ?_, ?_⟩ <;>
    simp [read_book_by_id, update_book_by_id, delete_book_by_id, h]

/-- Witness for C9: id 99 is absent from the sample store. -/
theorem not_found_leaves_state_unchanged_witness :
    read_book_by_id sampleDB [] 99 = (.error .notFound, sampleDB, []) ∧
    update_book_by_id sampleDB [] 99 {} = (.error .notFound, sampleDB, []) ∧
    delete_book_by_id sampleDB [] 99 = (.error .notFound, sampleDB, []) :=
  ⟨(not_found_leaves_state_unchanged sampleDB [] 99 rfl).1,
   (not_found_leaves_state_unchanged sampleDB [] 99 rfl).2.1 {},
   (not_found_leaves_state_unchanged sampleDB [] 99 rfl).2.2⟩

/-- Claim C1: every successful create / get-by-id / update / delete
handler call enqueues exactly one event (`q' = publish q e`, a single
append), whose `action` is `created`/`read`/`updated`/`deleted`
respectively and whose `book_id` is the affected record's id; the store
returned alongside is already the post-operation store and the event
describes the post-operation record, reflecting that the store
operation completes before the enqueue. -/
theorem handlers_enqueue_exactly_one_event (db : DB) (q : EventQueue) :
    (∀ c b db' q', create_new_book db q c = (.ok b, db', q') →
      q' = publish q { action := "created", book_id := b.id, title := some b.title } ∧
      db' = (create_book db c).2 ∧ b ∈ db'.books) ∧
    (∀ book_id b db' q', read_book_by_id db q book_id = (.ok b, db', q') →
      b.id = book_id ∧
      q' = publish q { action := "read", book_id := b.id, title := some b.title } ∧
      db' = db) ∧
    (∀ book_id u b db' q', update_book_by_id db q book_id u = (.ok b, db', q') →
      b.id = book_id ∧
      q' = publish q { action := "updated", book_id := b.id, title := some b.title } ∧
      db' = db.commitUpdate b) ∧
    (∀ book_id db' q', delete_book_by_id db q book_id = (.ok (), db', q') →
      q' = publish q { action := "deleted", book_id := book_id } ∧
      db' = delete_book db book_id) := by
  refine ⟨?_, ?_, ?_, ?_⟩
  · intro c b db' q' h
    simp only [create_new_book, create_book, publish, Prod.mk.injEq,
      Except.ok.injEq] at h
    obtain ⟨hb, hdb, hq⟩ := h
    subst hb hdb hq
    exact ⟨rfl, rfl, by simp⟩
  · intro book_id b db' q' h
    cases hfind : get_book_by_id db book_id with
    | none => rw [read_book_by_id, hfind] at h; simp at h
    | some bk =>
        rw [read_book_by_id, hfind] at h
        simp only [Prod.mk.injEq, Except.ok.injEq] at h
        obtain ⟨hb, hdb, hq⟩ := h
        subst hb hdb hq
        exact ⟨get_book_by_id_some_id db book_id _ hfind, rfl, rfl⟩
  · intro book_id u b db' q' h
    cases hfind : get_book_by_id db book_id with
    | none => simp [update_book_by_id, hfind] at h
    | some bk =>
        cases hup : update_book bk u with
        | error e => simp [update_book_by_id, hfind, hup] at h
        | ok ub =>
            simp only [update_book_by_id, hfind, hup, Prod.mk.injEq,
              Except.ok.injEq] at h
            obtain ⟨hb, hdb, hq⟩ := h
            subst hb hdb hq
            have hid := update_book_ok_id bk _ u hup
            have hbk : bk.id = book_id := get_book_by_id_some_id db book_id bk hfind
            exact ⟨hid.trans hbk, rfl, rfl⟩
  · intro book_id db' q' h
    cases hfind : get_book_by_id db book_id with
    | none => rw [delete_book_by_id, hfind] at h; simp at h
    | some bk =>
        rw [delete_book_by_id, hfind] at h
        simp only [Prod.mk.injEq] at h
        obtain ⟨-, hdb, hq⟩ := h
        subst hdb hq
        exact ⟨rfl, rfl⟩

/-- Witness for C1: creating the Dune row on an empty store enqueues
the single `created` event for the assigned id. -/
theorem handlers_enqueue_exactly_one_event_witness :
    ([{ action := "created", book_id := 1, title := some "Dune" }] : EventQueue)
      = publish [] { action := "created", book_id := sampleBook.id,
                     title := some sampleBook.title } ∧
    sampleDB = (create_book emptyDB ⟨"Dune", "Herbert", none, none, none⟩).2 ∧
    sampleBook ∈ sampleDB.books :=
  (handlers_enqueue_exactly_one_event emptyDB []).1
    ⟨"Dune", "Herbert", none, none, none⟩ sampleBook sampleDB
    [{ action := "created", book_id := 1, title := some "Dune" }] rfl

/-- Claim C2: a successful partial update changes only the fields
explicitly present in the body; every absent field keeps its prior
value, the primary key is unchanged, and every other row stays in the
table. -/
theorem update_frame (db : DB) (q : EventQueue) (book_id : Nat)
    (u : BookUpdate) (b b' : Book) (db' : DB) (q' : EventQueue)
    (hfound : get_book_by_id db book_id = some b)
    (hok : update_book_by_id db q book_id u = (.ok b', db', q')) :
    b'.id = b.id ∧
    (u.title = none → b'.title = b.title) ∧
    (u.author = none → b'.author = b.author) ∧
    (u.published_date = none → b'.published_date = b.published_date) ∧
    (u.summary = none → b'.summary = b.summary) ∧
    (u.genre = none → b'.genre = b.genre) ∧
    (∀ r ∈ db.books, r.id ≠ b.id → r ∈ db'.books) := by
  cases hup : update_book b u with
  | error e => simp [update_book_by_id, hfound, hup] at hok
  | ok ub =>
      simp only [update_book_by_id, hfound, hup, Prod.mk.injEq,
        Except.ok.injEq] at hok
      obtain ⟨hb, hdb, -⟩ := hok
      subst hb
      rw [update_book_eq_ok_iff] at hup
      obtain ⟨t, a, ht, ha, rfl⟩ := hup
      refine ⟨rfl, ?_, ?_, ?_, ?_, ?_, ?_⟩
      · intro h0; rw [h0] at ht; simpa using ht.symm
      · intro h0; rw [h0] at ha; simpa using ha.symm
      · intro h0; simp [h0]
      · intro h0; simp [h0]
      · intro h0; simp [h0]
      · intro r hr hne
        subst hdb
        exact commitUpdate_mem_of_ne db _ r hr hne

/-- Witness for C2: updating only `title` to `"X"` keeps the author and
the id. -/
theorem update_frame_witness :
    (⟨1, "X", "Herbert", none, none, none⟩ : Book).id = sampleBook.id ∧
    (⟨1, "X", "Herbert", none, none, none⟩ : Book).author = sampleBook.author :=
  ⟨(update_frame sampleDB [] 1 ⟨some (some "X"), none, none, none, none⟩
      sampleBook ⟨1, "X", "Herbert", none, none, none⟩
      (sampleDB.commitUpdate ⟨1, "X", "Herbert", none, none, none⟩)
      (publish [] { action := "updated", book_id := 1, title := some "X" })
      rfl rfl).1,
   (update_frame sampleDB [] 1 ⟨some (some "X"), none, none, none, none⟩
      sampleBook ⟨1, "X", "Herbert", none, none, none⟩
      (sampleDB.commitUpdate ⟨1, "X", "Herbert", none, none, none⟩)
      (publish [] { action := "updated", book_id := 1, title := some "X" })
      rfl rfl).2.2.1 rfl⟩

/-- Claim C8: on a store whose live ids are all below the allocator, a
successful create yields a row whose `title`, `author`,
`published_date`, `summary` and `genre` are exactly the supplied values
(omitted optional fields `null`), with the server-assigned id, and a
subsequent get-by-id on that id returns that same row. -/
theorem create_then_get_roundtrip (db : DB) (q : EventQueue)
    (c : BookCreate) (b : Book) (db' : DB) (q' : EventQueue)
    (hfresh : DB.fresh db)
    (hok : create_new_book db q c = (.ok b, db', q')) :
    b.title = c.title ∧ b.author = c.author ∧
    b.published_date = c.published_date ∧ b.summary = c.summary ∧
    b.genre = c.genre ∧ b.id = db.nextId ∧
    (∀ q₂, read_book_by_id db' q₂ b.id =
      (.ok b, db', publish q₂
        { action := "read", book_id := b.id, title := some b.title })) := by
  simp only [create_new_book, create_book, publish, Prod.mk.injEq,
    Except.ok.injEq] at hok
  obtain ⟨hb, hdb, -⟩ := hok
  subst hb hdb
  refine ⟨rfl, rfl, rfl, rfl, rfl, rfl, ?_⟩
  intro q₂
  have hne : ∀ r ∈ db.books, r.id ≠ db.nextId := by
    intro r hr
    exact Nat.ne_of_lt (hfresh r hr)
  have hfind := get_book_append_fresh db.books
    { id := db.nextId, title := c.title, author := c.author
      published_date := c.published_date, summary := c.summary
      genre := c.genre } (db.nextId + 1) hne
  simp [read_book_by_id, hfind, publish]

/-- Witness for C8: the spec's concrete scenario — creating
`{title: "Dune", author: "Herbert"}` on an empty store yields id 1 with
the optional fields null, and getting id 1 returns the same row. -/
theorem create_then_get_roundtrip_witness :
    sampleBook.title = "Dune" ∧ sampleBook.author = "Herbert" ∧
    sampleBook.published_date = none ∧ sampleBook.summary = none ∧
    sampleBook.genre = none ∧ sampleBook.id = emptyDB.nextId ∧
    read_book_by_id sampleDB [] sampleBook.id =
      (.ok sampleBook, sampleDB, publish []
        { action := "read", book_id := sampleBook.id,
          title := some sampleBook.title }) := by
  have h := create_then_get_roundtrip emptyDB []
    ⟨"Dune", "Herbert", none, none, none⟩ sampleBook sampleDB
    [{ action := "created", book_id := 1, title := some "Dune" }]
    (by intro b hb; simp [emptyDB] at hb) rfl
  exact ⟨h.1, h.2.1, h.2.2.1, h.2.2.2.1, h.2.2.2.2.1, h.2.2.2.2.2.1,
    h.2.2.2.2.2.2 []⟩

/-- Claim C10 as stated is refuted for the required columns: explicitly
supplying `null` for `title` on an existing book does not set the
stored title to null — the NOT NULL constraint from `models.py` makes
the commit raise, the handler responds with the generic 500, and the
stored row keeps its title. -/
theorem update_null_title_counterexample :
    update_book_by_id sampleDB [] 1 { title := some none } =
      (.error .serverError, sampleDB, []) ∧
    (get_book_by_id sampleDB 1).map Book.title = some "Dune" :=
  ⟨rfl, rfl⟩

/-- Claim C10 (amended): the update body distinguishes absent from
explicitly-null fields — an omitted field keeps its prior value; an
explicit `null` for one of the nullable columns sets that stored field
to null; an explicit `null` for `title` or `author` makes the commit
fail with the generic server error, store and queue unchanged; and
whenever neither `title` nor `author` is explicitly null the update
succeeds. -/
theorem update_null_vs_absent (db : DB) (q : EventQueue) (book_id : Nat)
    (u : BookUpdate) (b : Book)
    (hfound : get_book_by_id db book_id = some b) :
    ((u.title = some none ∨ u.author = some none) →
      update_book_by_id db q book_id u = (.error .serverError, db, q)) ∧
    (∀ b' db' q', update_book_by_id db q book_id u = (.ok b', db', q') →
      (u.published_date = some none → b'.published_date = none) ∧
      (u.summary = some none → b'.summary = none) ∧
      (u.genre = some none → b'.genre = none) ∧
      (u.title = none → b'.title = b.title) ∧
      (u.author = none → b'.author = b.author) ∧
      (u.published_date = none → b'.published_date = b.published_date) ∧
      (u.summary = none → b'.summary = b.summary) ∧
      (u.genre = none → b'.genre = b.genre)) ∧
    ((u.title = none ∨ ∃ s, u.title = some (some s)) →
      (u.author = none ∨ ∃ s, u.author = some (some s)) →
      ∃ b' db' q', update_book_by_id db q book_id u = (.ok b', db', q')) := by
  refine ⟨?_, ?_, ?_⟩
  · intro hnull
    have herr : update_book b u = .error .integrityError :=
      (update_book_eq_error_iff b u).mpr hnull
    simp [update_book_by_id, hfound, herr]
  · intro b' db' q' hok
    cases hup : update_book b u with
    | error e => simp [update_book_by_id, hfound, hup] at hok
    | ok ub =>
        simp only [update_book_by_id, hfound, hup, Prod.mk.injEq,
          Except.ok.injEq] at hok
        obtain ⟨hb, -, -⟩ := hok
        subst hb
        rw [update_book_eq_ok_iff] at hup
        obtain ⟨t, a, ht, ha, rfl⟩ := hup
        refine ⟨?_, ?_, ?_, ?_, ?_, ?_, ?_, ?_⟩ <;> intro h0
        · simp [h0]
        · simp [h0]
        · simp [h0]
        · rw [h0] at ht; simpa using ht.symm
        · rw [h0] at ha; simpa using ha.symm
        · simp [h0]
        · simp [h0]
        · simp [h0]
  · intro htitle hauthor
    have ht : ∃ t, u.title.getD (some b.title) = some t := by
      rcases htitle with h0 | ⟨s, h0⟩ <;> simp [h0]
    have ha : ∃ a, u.author.getD (some b.author) = some a := by
      rcases hauthor with h0 | ⟨s, h0⟩ <;> simp [h0]
    obtain ⟨t, ht⟩ := ht
    obtain ⟨a, ha⟩ := ha
    have hok : update_book b u = .ok
        { id := b.id, title := t, author := a
          published_date := u.published_date.getD b.published_date
          summary := u.summary.getD b.summary
          genre := u.genre.getD b.genre } :=
      (update_book_eq_ok_iff _ _ _).mpr ⟨t, a, ht, ha, rfl⟩
    have hcall : update_book_by_id db q book_id u =
        (.ok { id := b.id, title := t, author := a
               published_date := u.published_date.getD b.published_date
               summary := u.summary.getD b.summary
               genre := u.genre.getD b.genre },
         db.commitUpdate
           { id := b.id, title := t, author := a
             published_date := u.published_date.getD b.published_date
             summary := u.summary.getD b.summary
             genre := u.genre.getD b.genre },
         publish q { action := "updated", book_id := b.id, title := some t }) := by
      simp [update_book_by_id, hfound, hok]
    exact ⟨_, _, _, hcall⟩

/-- Witness for the amended C10: explicit-null `title` errors with the
store untouched, while explicit-null `published_date` on a row that had
one stores null. -/
theorem update_null_vs_absent_witness :
    update_book_by_id sampleDB [] 1 { title := some none } =
      (.error .serverError, sampleDB, []) ∧
    (⟨1, "Dune", "Herbert", none, none, none⟩ : Book).published_date = none :=
  ⟨(update_null_vs_absent sampleDB [] 1 { title := some none } sampleBook
      rfl).1 (Or.inl rfl),
   ((update_null_vs_absent ⟨[⟨1, "Dune", "Herbert", some "1965", none, none⟩], 2⟩
      [] 1 { published_date := some none }
      ⟨1, "Dune", "Herbert", some "1965", none, none⟩ rfl).2.1
      ⟨1, "Dune", "Herbert", none, none, none⟩
      (DB.commitUpdate ⟨[⟨1, "Dune", "Herbert", some "1965", none, none⟩], 2⟩
        ⟨1, "Dune", "Herbert", none, none, none⟩)
      (publish [] { action := "updated", book_id := 1, title := some "Dune" })
      rfl).1 rfl⟩

/-- Claim C4: with several SSE subscribers draining the one shared
queue, every enqueued event is dequeued by exactly one subscriber — in
any reachable interleaving, two delivery records for the same event
name the same subscriber, so no event reaches two subscribers. -/
theorem sse_event_delivered_to_one_subscriber (s : BusState)
    (hs : BusReachable s) (i j e : Nat)
    (hi : (i, e) ∈ s.delivered) (hj : (j, e) ∈ s.delivered) : i = j := by
  have hinv := busInv_reachable s hs
  have hnd : (s.delivered.map Prod.snd).Nodup := hinv.2.of_append_right
  have hpair : ((i, e) : Nat × Nat) = (j, e) :=
    List.inj_on_of_nodup_map hnd hi hj rfl
  exact congrArg Prod.fst hpair

/-- Witness for C4: the two-step interleaving enqueue-then-consume by
subscriber 0 is reachable, and the delivery record is unique. -/
theorem sse_event_delivered_to_one_subscriber_witness :
    BusReachable ⟨[], [(0, 0)], 1⟩ ∧ (0 : Nat) = 0 := by
  have h1 : BusStep BusState.init ⟨[0], [], 1⟩ := BusStep.enqueue BusState.init
  have h2 : BusStep ⟨[0], [], 1⟩ ⟨[], [(0, 0)], 1⟩ :=
    BusStep.consume ⟨[0], [], 1⟩ 0 0 [] rfl
  have hs : BusReachable ⟨[], [(0, 0)], 1⟩ :=
    Relation.ReflTransGen.tail
      (Relation.ReflTransGen.tail Relation.ReflTransGen.refl h1) h2
  exact ⟨hs, sse_event_delivered_to_one_subscriber ⟨[], [(0, 0)], 1⟩ hs 0 0 0
    (by simp) (by simp)⟩

end BooksApp
